import Mathlib

/-!
Verification of the retrieval/ranking engine of the legal-chatbot repository
(`app.py`, traffic-law variant, and `healthcare_chatbot.py`, health variant).

Modelling conventions:
* Python strings are Lean `String`s; `str.replace`, substring membership
  (`in`), `str.split()` and `str.strip()` are embedded as executable
  functions over `List Char` below.
* Python floats (similarities, confidences) are modelled as exact
  fixed-point integers in hundredths: 0.05 ↦ 5, 0.1 ↦ 10, 0.2 ↦ 20,
  0.3 ↦ 30.  All score arithmetic in the source is addition and
  comparison of such constants with the raw similarity, so the encoding
  is lossless for the control flow being verified.
* The TF-IDF matrix itself is opaque to every claim: each search
  function is parametrised by the vector `sims` of cosine similarities
  of the query against the indexed rows, and the index artifact is
  modelled as the snapshot of the corpus it was built from (the build
  is deterministic in the corpus).
* `text.lower()` is modelled with `Char.toLower` (ASCII); every
  concrete input evaluated below is already lower-case, where the two
  agree.
-/

/-! ## Python string primitives -/

/-- Python `text.lower()` (character-wise). -/
def lowerStr (s : String) : String := String.mk (s.data.map Char.toLower)

/-- Scan of `str.replace`: replaces non-overlapping occurrences of `pat`
left to right; the replacement text is not rescanned.  `fuel` bounds the
recursion; it is always called with more fuel than the string length. -/
def replAux : Nat → List Char → List Char → List Char → List Char
  | 0, s, _, _ => s
  | _ + 1, [], _, _ => []
  | fuel + 1, c :: rest, pat, rep =>
      if pat.isPrefixOf (c :: rest) then
        rep ++ replAux fuel (List.drop pat.length (c :: rest)) pat rep
      else
        c :: replAux fuel rest pat rep

/-- Python `s.replace(pat, rep)` (for the nonempty patterns used here). -/
def pyReplace (s pat rep : String) : String :=
  if pat.data.isEmpty then s
  else String.mk (replAux (s.data.length + 1) s.data pat.data rep.data)

/-- Substring occurrence over character lists. -/
def containsSub : List Char → List Char → Bool
  | [], pat => pat.isEmpty
  | c :: rest, pat => pat.isPrefixOf (c :: rest) || containsSub rest pat

/-- Python `sub in s` (substring membership). -/
def pyIn (sub s : String) : Bool := containsSub s.data sub.data

/-- Whitespace characters recognised by Python `str.split()` / `str.strip()`
(the subset that occurs in the data). -/
def isSpaceChar (c : Char) : Bool :=
  c = ' ' || c = '\t' || c = '\n' || c = '\r'

/-- Helper for `pySplit`: split a character list on whitespace runs. -/
def splitWsAux : List Char → List Char → List String
  | [], acc => if acc.isEmpty then [] else [String.mk acc.reverse]
  | c :: rest, acc =>
      if isSpaceChar c then
        if acc.isEmpty then splitWsAux rest []
        else String.mk acc.reverse :: splitWsAux rest []
      else splitWsAux rest (c :: acc)

/-- Python `s.split()` — split on whitespace runs, dropping empty pieces. -/
def pySplit (s : String) : List String := splitWsAux s.data []

/-- Python `s.strip()`. -/
def pyStrip (s : String) : String :=
  String.mk (((s.data.dropWhile (isSpaceChar ·)).reverse.dropWhile
    (isSpaceChar ·)).reverse)

/-- `" ".join`-style concatenation used by the corpus f-strings. -/
def joinSp : List String → String
  | [] => ""
  | [s] => s
  | s :: rest => s ++ " " ++ joinSp rest

/-! ## Shared normalisation machinery

Both variants apply a fixed, ordered table of literal substitutions to
the lower-cased text (`preprocess_text` in `app.py` and in
`healthcare_chatbot.py`); Python dicts iterate in insertion order. -/

/-- Apply a replacement table in table order, each substitution scanning
the already-partially-substituted string. -/
def applyReplacements (table : List (String × String)) (text : String) : String :=
  table.foldl (fun t p => pyReplace t p.1 p.2) (lowerStr text)

/-- The traffic-law synonym table (`app.py`, `preprocess_text`). -/
def trafficReplacements : List (String × String) :=
  [("xe gắn máy", "xe máy"),
   ("moto", "xe máy"),
   ("xe mô tô", "xe máy"),
   ("ô tô con", "ô tô"),
   ("xe hơi", "ô tô"),
   ("xe con", "ô tô"),
   ("rượu bia", "nồng độ cồn"),
   ("say xỉn", "nồng độ cồn"),
   ("uống rượu", "nồng độ cồn"),
   ("vượt đèn đỏ", "đèn đỏ"),
   ("chạy qua đèn đỏ", "đèn đỏ"),
   ("không đội mũ bảo hiểm", "mũ bảo hiểm"),
   ("không có mũ bảo hiểm", "mũ bảo hiểm"),
   ("chạy quá tốc độ", "tốc độ"),
   ("vượt tốc độ", "tốc độ"),
   ("bằng lái", "giấy phép lái xe"),
   ("giấy phép", "giấy phép lái xe")]

/-- `LegalChatbot.preprocess_text`. -/
def trafficPreprocess (text : String) : String :=
  applyReplacements trafficReplacements text

/-- The health synonym table (`healthcare_chatbot.py`, `preprocess_text`). -/
def healthReplacements : List (String × String) :=
  [("đau đầu", "nhức đầu"),
   ("nhức đầu", "đau đầu"),
   ("cảm cúm", "cảm lạnh"),
   ("cảm lạnh", "cảm cúm"),
   ("ho có đờm", "ho có đờm balgam"),
   ("ho khan", "ho khô"),
   ("sốt cao", "nhiệt độ cao"),
   ("đau bụng", "đau dạ dày"),
   ("mệt mỏi", "mệt mỏi uể oải"),
   ("uể oải", "mệt mỏi uể oải"),
   ("căng thẳng", "stress"),
   ("stress", "căng thẳng stress"),
   ("lo âu", "lo lắng"),
   ("lo lắng", "lo âu lo lắng"),
   ("khó ngủ", "mất ngủ"),
   ("mất ngủ", "khó ngủ mất ngủ"),
   ("tập thể dục", "vận động"),
   ("thể thao", "vận động"),
   ("ăn uống", "dinh dưỡng"),
   ("chế độ ăn", "dinh dưỡng")]

/-- `HealthCareChatbot.preprocess_text`. -/
def healthPreprocess (text : String) : String :=
  applyReplacements healthReplacements text

/-! ## Traffic-law variant: entity extraction (`app.py`, `extract_entities`) -/

/-- Result of `LegalChatbot.extract_entities`. -/
structure Entities where
  vehicle_type : Option String
  violation_types : List String
  speed : Option Nat
  alcohol_level : Option Nat
deriving DecidableEq

/-- Digit-run to integer, for the `(\d+)` capture group. -/
def digitsToNat (l : List Char) : Nat :=
  l.foldl (fun n c => 10 * n + (c.toNat - '0'.toNat)) 0

/-- `re.search(r"(\d+)\s*km/h", text)`: leftmost maximal digit run
followed by optional whitespace and the literal `km/h`. -/
def findSpeed : List Char → Option Nat
  | [] => none
  | c :: rest =>
      if c.isDigit then
        let run := (c :: rest).takeWhile (·.isDigit)
        let after := ((c :: rest).dropWhile (·.isDigit)).dropWhile (isSpaceChar ·)
        if ("km/h".data).isPrefixOf after then some (digitsToNat run)
        else findSpeed rest
      else findSpeed rest

/-- `LegalChatbot.extract_entities`: preprocess, then keyword-group
membership checks; `alcohol_level` is initialised to `None` and never
assigned. -/
def extractEntities (text : String) : Entities :=
  let t := trafficPreprocess text
  let vt : Option String :=
    if ["xe máy", "moto"].any (fun w => pyIn w t) then some "xe máy"
    else if ["ô tô", "xe hơi", "xe con"].any (fun w => pyIn w t) then some "ô tô"
    else none
  let speedHit := ["tốc độ", "chạy nhanh", "km/h", "quá tốc độ"].any (fun w => pyIn w t)
  let speed : Option Nat := if speedHit then findSpeed t.data else none
  let vts :=
    (if speedHit then ["tốc độ"] else []) ++
    (if ["cồn", "rượu", "bia", "say"].any (fun w => pyIn w t) then ["nồng độ cồn"] else []) ++
    (if ["đèn đỏ", "vượt đèn", "đèn tín hiệu"].any (fun w => pyIn w t) then ["đèn đỏ"] else []) ++
    (if ["mũ bảo hiểm", "không đội", "mũ"].any (fun w => pyIn w t) then ["mũ bảo hiểm"] else []) ++
    (if ["giấy phép", "bằng lái", "giấy tờ"].any (fun w => pyIn w t) then ["giấy tờ"] else [])
  { vehicle_type := vt, violation_types := vts, speed := speed, alcohol_level := none }

/-! ## Traffic-law variant: data model and search -/

/-- A row of the `violations` table, restricted to the fields the engine
reads.  `description` is an `Option` because the column is nullable in
SQLite (pandas delivers `None`, which an f-string renders as `"None"`). -/
structure ViolationRec where
  description : Option String
  keywords : String
  vehicle_type : String
  violation_type : String
deriving DecidableEq

/-- Rendering of an optional pandas cell inside an f-string. -/
def fcell : Option String → String
  | some s => s
  | none => "None"

/-- The corpus entry built for one violation row
(`app.py` `load_data`: `f"{description} {keywords} {vehicle_type} {violation_type}".lower()`). -/
def violationText (v : ViolationRec) : String :=
  lowerStr (joinSp [fcell v.description, v.keywords, v.vehicle_type, v.violation_type])

/-- `load_data`'s corpus: one normalised document per violation row. -/
def trafficCorpus (viols : List ViolationRec) : List String :=
  viols.map violationText

/-- Similarity lookup (scores in hundredths); out-of-range reads 0. -/
def simAt (sims : List Int) (i : Nat) : Int := sims.getD i 0

/-- Insert index `i` into an ascending argsort list: strictly before the
first index with larger similarity, with index order breaking ties
(a deterministic refinement of `numpy.argsort`). -/
def insIdx (sims : List Int) (i : Nat) : List Nat → List Nat
  | [] => [i]
  | j :: rest =>
      if simAt sims i < simAt sims j ∨ (simAt sims i = simAt sims j ∧ i ≤ j) then
        i :: j :: rest
      else j :: insIdx sims i rest

/-- `similarities.argsort()`: indices in ascending similarity order. -/
def argsortAsc (sims : List Int) : List Nat :=
  (List.range sims.length).foldr (insIdx sims) []

/-- `similarities.argsort()[-top_k:][::-1]`: the candidate pool — the
(at most) `k` highest-similarity indices, in descending order. -/
def topIndices (sims : List Int) (k : Nat) : List Nat :=
  ((argsortAsc sims).drop ((argsortAsc sims).length - k)).reverse

/-- Vehicle-type bonus (`app.py` lines 164-171): +0.2 when the extracted
vehicle type occurs in the record's `vehicle_type`, else +0.1 when the
record applies to all vehicles (`"tất cả"`). -/
def vehicleBonus (e : Entities) (v : ViolationRec) : Int :=
  match e.vehicle_type with
  | some evt =>
      if pyIn evt v.vehicle_type then 20
      else if v.vehicle_type = "tất cả" then 10 else 0
  | none => if v.vehicle_type = "tất cả" then 10 else 0

/-- Violation-type bonus (`app.py` lines 173-178): +0.3 on the first
extracted tag contained in the record's `violation_type`, then `break`. -/
def typeBonusAux : List String → String → Int
  | [], _ => 0
  | t :: rest, vt => if pyIn t vt then 30 else typeBonusAux rest vt

def typeBonus (e : Entities) (v : ViolationRec) : Int :=
  typeBonusAux e.violation_types v.violation_type

/-- A returned search hit: the source row index, the row, and the
adjusted confidence (in hundredths). -/
structure TResult where
  idx : Nat
  row : ViolationRec
  confidence : Int
deriving DecidableEq

def defaultViolation : ViolationRec := ⟨some "", "", "", ""⟩

/-- Build the result for one candidate index (similarity plus the two
bonuses, in source order). -/
def mkTResult (sims : List Int) (viols : List ViolationRec) (e : Entities)
    (i : Nat) : TResult :=
  let v := viols.getD i defaultViolation
  ⟨i, v, simAt sims i + vehicleBonus e v + typeBonus e v⟩

/-- The filtered candidate list (`app.py` lines 159-180): pool indices
whose similarity strictly exceeds the 0.05 threshold. -/
def trafficCandidates (sims : List Int) (viols : List ViolationRec)
    (e : Entities) : List TResult :=
  (topIndices sims 5).filterMap fun i =>
    if 5 < simAt sims i then some (mkTResult sims viols e i) else none

/-- Stable descending insertion by a confidence key (Python's stable
`list.sort(key=..., reverse=True)`). -/
def insDescBy (key : α → Int) (r : α) : List α → List α
  | [] => [r]
  | x :: xs => if key x < key r then r :: x :: xs else x :: insDescBy key r xs

def sortDescBy (key : α → Int) (l : List α) : List α :=
  l.foldl (fun acc r => insDescBy key r acc) []

/-- `LegalChatbot.search_violations` with the entities precomputed:
candidate pool of 5, threshold filter, bonuses, stable re-sort by
confidence, truncation to the top 3. -/
def searchViolationsE (sims : List Int) (viols : List ViolationRec)
    (e : Entities) : List TResult :=
  if trafficCorpus viols = [] then []
  else (sortDescBy TResult.confidence (trafficCandidates sims viols e)).take 3

/-- `LegalChatbot.search_violations` on a raw query. -/
def searchViolations (sims : List Int) (viols : List ViolationRec)
    (query : String) : List TResult :=
  searchViolationsE sims viols (extractEntities query)

/-! ## Health variant: data model (`healthcare_chatbot.py`) -/

/-- A `health_advice` row, restricted to the fields the engine reads. -/
structure AdviceRec where
  condition_name : String
  symptoms : String
  keywords : String
  category : String
deriving DecidableEq

/-- A `nutrition_data` row, restricted to the fields the engine reads. -/
structure NutritionRec where
  food_name : String
  benefits : String
  keywords : String
  category : String
deriving DecidableEq

/-- An `exercise_data` row, restricted to the fields the engine reads. -/
structure ExerciseRec where
  exercise_name : String
  benefits : String
  keywords : String
  category : String
deriving DecidableEq

/-- A record resolved from a corpus row index (`data_type` tagging in
`search_health_info`). -/
inductive HRecord where
  | advice : AdviceRec → HRecord
  | nutrition : NutritionRec → HRecord
  | exercise : ExerciseRec → HRecord
deriving DecidableEq

/-- Corpus entry for a health-advice row (`load_data`). -/
def adviceText (a : AdviceRec) : String :=
  lowerStr (joinSp [a.condition_name, a.symptoms, a.keywords, a.category])

/-- Corpus entry for a nutrition row (`load_data`). -/
def nutritionText (n : NutritionRec) : String :=
  lowerStr (joinSp [n.food_name, n.benefits, n.keywords, n.category])

/-- Corpus entry for an exercise row (`load_data`). -/
def exerciseText (e : ExerciseRec) : String :=
  lowerStr (joinSp [e.exercise_name, e.benefits, e.keywords, e.category])

/-- The corpus text a resolved record was built from. -/
def recordText : HRecord → String
  | .advice a => adviceText a
  | .nutrition n => nutritionText n
  | .exercise e => exerciseText e

/-- `HealthCareChatbot.load_data`: the corpus is health advice, then
nutrition, then exercise, in collection order. -/
def healthCorpus (A : List AdviceRec) (N : List NutritionRec)
    (E : List ExerciseRec) : List String :=
  A.map adviceText ++ N.map nutritionText ++ E.map exerciseText

def defaultAdvice : AdviceRec := ⟨"", "", "", ""⟩
def defaultNutrition : NutritionRec := ⟨"", "", "", ""⟩
def defaultExercise : ExerciseRec := ⟨"", "", "", ""⟩

/-- The offset arithmetic of `search_health_info` (lines 540-558):
resolve a corpus row index back to its source record. -/
def decodeHealth (A : List AdviceRec) (N : List NutritionRec)
    (E : List ExerciseRec) (idx : Nat) : HRecord :=
  if idx < A.length then .advice (A.getD idx defaultAdvice)
  else if idx < A.length + N.length then
    .nutrition (N.getD (idx - A.length) defaultNutrition)
  else .exercise (E.getD (idx - A.length - N.length) defaultExercise)

/-! ## Health variant: entity extraction -/

/-- Result of `extract_health_entities`. -/
structure HEntities where
  symptoms : List String
  body_parts : List String
  health_topics : List String
  urgency_level : String
deriving DecidableEq

/-- The symptom keyword list of `extract_health_entities`. -/
def symptomKeywords : List String :=
  ["đau đầu", "nhức đầu", "sốt", "ho", "đau bụng", "buồn nôn", "chóng mặt",
   "mệt mỏi", "khó ngủ", "căng thẳng", "lo âu", "uể oải", "mất ngủ",
   "stress", "lo lắng"]

/-- The body-part keyword list of `extract_health_entities`. -/
def bodyPartKeywords : List String :=
  ["đầu", "cổ", "vai", "lưng", "bụng", "chân", "tay", "mắt", "tai", "mũi",
   "họng", "ngực", "tim", "phổi"]

/-- The emergency keyword list shared by `extract_health_entities` and
`check_emergency`. -/
def emergencyKeywords : List String :=
  ["cấp cứu", "khẩn cấp", "nguy hiểm", "dữ dội", "nghiêm trọng",
   "bất tỉnh", "choáng váng", "khó thở"]

/-- `HealthCareChatbot.extract_health_entities`. -/
def extractHealthEntities (text : String) : HEntities :=
  let t := healthPreprocess text
  { symptoms := symptomKeywords.filter (fun s => pyIn s t)
    body_parts := bodyPartKeywords.filter (fun p => pyIn p t)
    health_topics :=
      (if ["ăn", "thức ăn", "dinh dưỡng", "vitamin"].any (fun w => pyIn w t)
       then ["nutrition"] else []) ++
      (if ["tập", "thể dục", "vận động", "gym"].any (fun w => pyIn w t)
       then ["exercise"] else [])
    urgency_level :=
      if emergencyKeywords.any (fun k => pyIn k t) then "emergency"
      else "normal" }

/-! ## Health variant: search -/

/-- A returned health search hit. -/
structure HResult where
  idx : Nat
  record : HRecord
  confidence : Int
deriving DecidableEq

/-- Symptom bonus (`search_health_info` lines 562-571): +0.3 for *every*
extracted symptom contained in the record's `symptoms` field (there is
no early exit); only health-advice records carry a `symptoms` key, and a
falsy (empty) field never matches. -/
def symptomBonusAux (recSyms : String) : List String → Int
  | [] => 0
  | s :: rest =>
      (if pyIn s recSyms then 30 else 0) + symptomBonusAux recSyms rest

def symptomBonus (e : HEntities) (r : HRecord) : Int :=
  match r with
  | .advice a => if a.symptoms = "" then 0 else symptomBonusAux a.symptoms e.symptoms
  | _ => 0

/-- Build the result for one health candidate index. -/
def mkHResult (sims : List Int) (A : List AdviceRec) (N : List NutritionRec)
    (E : List ExerciseRec) (e : HEntities) (i : Nat) : HResult :=
  let r := decodeHealth A N E i
  ⟨i, r, simAt sims i + symptomBonus e r⟩

/-- Filtered health candidates: pool of the top `top_k = 3` indices,
threshold 0.05 strict. -/
def healthCandidates (sims : List Int) (A : List AdviceRec)
    (N : List NutritionRec) (E : List ExerciseRec) (e : HEntities) :
    List HResult :=
  (topIndices sims 3).filterMap fun i =>
    if 5 < simAt sims i then some (mkHResult sims A N E e i) else none

/-- `HealthCareChatbot.search_health_info` with the entities
precomputed: pool of 3 (the default `top_k`), threshold filter, symptom
bonus, stable re-sort by confidence, truncation to the top 3. -/
def searchHealthInfoE (sims : List Int) (A : List AdviceRec)
    (N : List NutritionRec) (E : List ExerciseRec) (e : HEntities) :
    List HResult :=
  if healthCorpus A N E = [] then []
  else (sortDescBy HResult.confidence (healthCandidates sims A N E e)).take 3

/-- `HealthCareChatbot.search_health_info` on a raw query. -/
def searchHealthInfo (sims : List Int) (A : List AdviceRec)
    (N : List NutritionRec) (E : List ExerciseRec) (query : String) :
    List HResult :=
  searchHealthInfoE sims A N E (extractHealthEntities query)

/-! ## Health variant: emergency short-circuit -/

/-- An `emergency_conditions` row. -/
structure EmergencyRec where
  condition_name : String
  symptoms : String
  immediate_action : String
  keywords : String
deriving DecidableEq

/-- `HealthCareChatbot.check_emergency`: requires an emergency keyword
in the preprocessed query, then returns the first stored condition one
of whose whitespace-separated keywords occurs in the preprocessed
query. -/
def checkEmergency (conds : List EmergencyRec) (query : String) :
    Option EmergencyRec :=
  let t := healthPreprocess query
  if emergencyKeywords.any (fun k => pyIn k t) then
    conds.find? (fun c => ((pySplit c.keywords).any (fun k => pyIn k t)))
  else none

/-- The shape of a `generate_health_response` outcome; the ranked search
is invoked only on the `noResults`/`answered` paths. -/
inductive HealthResponse where
  | emptyQuery
  | emergency (cond : EmergencyRec)
  | noResults
  | answered (results : List HResult)
deriving DecidableEq

/-- Confidence reported with a response (1.0 ↦ 100 on the emergency
path, top confidence on the answered path). -/
def responseConfidence : HealthResponse → Int
  | .emergency _ => 100
  | .answered (r :: _) => r.confidence
  | _ => 0

/-- Urgency reported with a response. -/
def responseUrgency (entities : HEntities) : HealthResponse → String
  | .emergency _ => "emergency"
  | .answered _ => entities.urgency_level
  | _ => "normal"

/-- `HealthCareChatbot.generate_health_response`: empty-query guard,
then the emergency short-circuit, then ranked search.  The second
component records whether `search_health_info` was invoked. -/
def generateHealthResponse (conds : List EmergencyRec) (sims : List Int)
    (A : List AdviceRec) (N : List NutritionRec) (E : List ExerciseRec)
    (query : String) : HealthResponse × Bool :=
  if pyStrip query = "" then (.emptyQuery, false)
  else
    match checkEmergency conds query with
    | some c => (.emergency c, false)
    | none =>
        let rs := searchHealthInfo sims A N E query
        if rs = [] then (.noResults, true) else (.answered rs, true)

/-! ## Traffic-law variant: engine state and record mutations

`app.py`: `__init__` runs `load_data()` then `build_search_index()`;
every mutation method (`add_violation`, `update_violation`,
`delete_violation`, `add_legal_document`, `update_legal_document`,
`delete_legal_document`) runs only `self.load_data()` afterwards — none
of them calls `build_search_index()` again.  The TF-IDF index is
modelled by the corpus snapshot it was fitted on. -/

structure EngineState where
  violationsDB : List ViolationRec
  violations : List ViolationRec
  corpus : List String
  indexCorpus : Option (List String)
deriving DecidableEq

/-- `LegalChatbot.load_data`: refresh `self.violations` and
`self.corpus` from the database. -/
def loadData (s : EngineState) : EngineState :=
  { s with violations := s.violationsDB, corpus := trafficCorpus s.violationsDB }

/-- `LegalChatbot.build_search_index`: refit the TF-IDF index on the
current corpus (no-op when the corpus is empty). -/
def buildSearchIndex (s : EngineState) : EngineState :=
  if s.corpus = [] then s else { s with indexCorpus := some s.corpus }

/-- `LegalChatbot.__init__` (data part): load, then build the index. -/
def initEngine (db : List ViolationRec) : EngineState :=
  buildSearchIndex (loadData ⟨db, [], [], none⟩)

/-- `LegalChatbot.add_violation`: insert the row, then `load_data()` —
and nothing else. -/
def addViolation (v : ViolationRec) (s : EngineState) : EngineState :=
  loadData { s with violationsDB := s.violationsDB ++ [v] }

/-- `LegalChatbot.delete_violation` (by position): delete the row, then
`load_data()` — and nothing else. -/
def deleteViolation (i : Nat) (s : EngineState) : EngineState :=
  loadData { s with violationsDB := s.violationsDB.eraseIdx i }

/-- `LegalChatbot.update_violation` (by position): update the row, then
`load_data()` — and nothing else. -/
def updateViolation (i : Nat) (v : ViolationRec) (s : EngineState) : EngineState :=
  loadData { s with violationsDB := s.violationsDB.set i v }

deriving instance DecidableEq for Except

/-- `load_data`'s corpus construction as a fallible step.  The source
builds every corpus entry unconditionally inside a `try` block that
re-raises only genuine exceptions; a row whose text field is SQL `NULL`
raises nothing (the f-string renders `None`), so the computation always
succeeds — there is no `DataError` path. -/
def loadDataResult (rows : List ViolationRec) : Except String (List String) :=
  .ok (trafficCorpus rows)

/-! ## Concrete fixtures used in the claim-level evaluations -/

def r1 : ViolationRec := ⟨some "vượt đèn đỏ", "đèn đỏ", "ô tô", "đèn đỏ"⟩
def r2 : ViolationRec := ⟨some "chạy quá tốc độ", "tốc độ", "xe máy", "tốc độ"⟩

/-- Six violation rows with no bonus-eligible fields for a neutral query. -/
def exViols : List ViolationRec :=
  [⟨some "a", "k", "xe máy", "tốc độ"⟩, ⟨some "b", "k", "xe máy", "tốc độ"⟩,
   ⟨some "c", "k", "xe máy", "tốc độ"⟩, ⟨some "d", "k", "xe máy", "tốc độ"⟩,
   ⟨some "e", "k", "xe máy", "tốc độ"⟩, ⟨some "f", "k", "xe máy", "tốc độ"⟩]

/-- Six violation rows where only row 3 matches the red-light tag. -/
def pViols : List ViolationRec :=
  [⟨some "a", "k", "xe máy", "tốc độ"⟩, ⟨some "b", "k", "xe máy", "tốc độ"⟩,
   ⟨some "c", "k", "xe máy", "tốc độ"⟩, ⟨some "d", "k", "xe máy", "đèn đỏ"⟩,
   ⟨some "e", "k", "xe máy", "tốc độ"⟩, ⟨some "f", "k", "xe máy", "tốc độ"⟩]

/-- Five advice rows where only row 3 lists the headache symptom. -/
def hA5 : List AdviceRec :=
  [⟨"h0", "sốt", "k", "symptom"⟩, ⟨"h1", "sốt", "k", "symptom"⟩,
   ⟨"h2", "sốt", "k", "symptom"⟩, ⟨"h3", "đau đầu", "k", "symptom"⟩,
   ⟨"h4", "sốt", "k", "symptom"⟩]

/-- One advice row whose symptoms field contains two extracted symptoms. -/
def cA : List AdviceRec := [⟨"x", "đau đầu, mệt mỏi", "k", "symptom"⟩]

/-- A stored emergency condition (from the shipped sample data). -/
def eCond : EmergencyRec :=
  ⟨"Đau ngực dữ dội", "đau ngực như bị ép, khó thở, toát mồ hôi",
   "Gọi cấp cứu 115", "đau ngực tim mạch cấp cứu khó thở"⟩

def goodRow : ViolationRec := ⟨some "vượt đèn đỏ", "kw", "ô tô", "đèn đỏ"⟩

/-- A row whose required `description` field is SQL `NULL`. -/
def badRow : ViolationRec := ⟨none, "kw", "xe máy", "tốc độ"⟩

/-! ## Structural lemmas -/

theorem mem_insDescBy (key : α → Int) (r : α) (l : List α) (a : α) :
    a ∈ insDescBy key r l ↔ a = r ∨ a ∈ l := by
  induction l with
  | nil => simp [insDescBy]
  | cons x xs ih =>
      simp only [insDescBy]
      split
      · simp
      · simp [ih]; tauto

theorem mem_foldl_insDescBy (key : α → Int) (l acc : List α) (a : α) :
    a ∈ l.foldl (fun acc r => insDescBy key r acc) acc ↔ a ∈ acc ∨ a ∈ l := by
  induction l generalizing acc with
  | nil => simp
  | cons x xs ih => simp [List.foldl_cons, ih, mem_insDescBy]; tauto

theorem mem_sortDescBy (key : α → Int) (l : List α) (a : α) :
    a ∈ sortDescBy key l ↔ a ∈ l := by
  simp [sortDescBy, mem_foldl_insDescBy]

theorem mem_insIdx (sims : List Int) (i : Nat) (l : List Nat) (j : Nat) :
    j ∈ insIdx sims i l ↔ j = i ∨ j ∈ l := by
  induction l with
  | nil => simp [insIdx]
  | cons x xs ih =>
      simp only [insIdx]
      split
      · simp
      · simp [ih]
        tauto

theorem mem_argsortAsc (sims : List Int) (i : Nat) :
    i ∈ argsortAsc sims ↔ i < sims.length := by
  have aux : ∀ l : List Nat, i ∈ l.foldr (insIdx sims) [] ↔ i ∈ l := by
    intro l
    induction l with
    | nil => simp
    | cons x xs ih => simp [List.foldr_cons, mem_insIdx, ih]
  simp [argsortAsc, aux, List.mem_range]

theorem length_insIdx (sims : List Int) (i : Nat) (l : List Nat) :
    (insIdx sims i l).length = l.length + 1 := by
  induction l with
  | nil => simp [insIdx]
  | cons x xs ih =>
      simp only [insIdx]
      split <;> simp [ih]

theorem length_argsortAsc (sims : List Int) :
    (argsortAsc sims).length = sims.length := by
  have aux : ∀ l : List Nat, (l.foldr (insIdx sims) []).length = l.length := by
    intro l
    induction l with
    | nil => simp
    | cons x xs ih => simp [List.foldr_cons, length_insIdx, ih]
  simp [argsortAsc, aux]

theorem length_topIndices (sims : List Int) (k : Nat) :
    (topIndices sims k).length = min k sims.length := by
  simp [topIndices, length_argsortAsc]
  omega

theorem mem_topIndices_lt (sims : List Int) (k : Nat) (i : Nat)
    (h : i ∈ topIndices sims k) : i < sims.length := by
  rw [topIndices, List.mem_reverse] at h
  exact (mem_argsortAsc sims i).mp (List.drop_subset _ _ h)

theorem mem_trafficCandidates (sims : List Int) (viols : List ViolationRec)
    (e : Entities) (r : TResult) :
    r ∈ trafficCandidates sims viols e ↔
      ∃ i, i ∈ topIndices sims 5 ∧ 5 < simAt sims i ∧
        r = mkTResult sims viols e i := by
  simp only [trafficCandidates, List.mem_filterMap]
  constructor
  · rintro ⟨i, hi, hf⟩
    by_cases h : 5 < simAt sims i
    · simp [h] at hf; exact ⟨i, hi, h, hf.symm⟩
    · simp [h] at hf
  · rintro ⟨i, hi, h, rfl⟩
    exact ⟨i, hi, by simp [h]⟩

theorem mem_healthCandidates (sims : List Int) (A : List AdviceRec)
    (N : List NutritionRec) (E : List ExerciseRec) (e : HEntities) (r : HResult) :
    r ∈ healthCandidates sims A N E e ↔
      ∃ i, i ∈ topIndices sims 3 ∧ 5 < simAt sims i ∧
        r = mkHResult sims A N E e i := by
  simp only [healthCandidates, List.mem_filterMap]
  constructor
  · rintro ⟨i, hi, hf⟩
    by_cases h : 5 < simAt sims i
    · simp [h] at hf; exact ⟨i, hi, h, hf.symm⟩
    · simp [h] at hf
  · rintro ⟨i, hi, h, rfl⟩
    exact ⟨i, hi, by simp [h]⟩

theorem mem_searchViolationsE (sims : List Int) (viols : List ViolationRec)
    (e : Entities) (r : TResult) (h : r ∈ searchViolationsE sims viols e) :
    ∃ i, i ∈ topIndices sims 5 ∧ 5 < simAt sims i ∧
      r = mkTResult sims viols e i := by
  rw [searchViolationsE] at h
  split at h
  · simp at h
  · exact (mem_trafficCandidates sims viols e r).mp
      ((mem_sortDescBy _ _ _).mp (List.take_subset _ _ h))

theorem mem_searchHealthInfoE (sims : List Int) (A : List AdviceRec)
    (N : List NutritionRec) (E : List ExerciseRec) (e : HEntities)
    (r : HResult) (h : r ∈ searchHealthInfoE sims A N E e) :
    ∃ i, i ∈ topIndices sims 3 ∧ 5 < simAt sims i ∧
      r = mkHResult sims A N E e i := by
  rw [searchHealthInfoE] at h
  split at h
  · simp at h
  · exact (mem_healthCandidates sims A N E e r).mp
      ((mem_sortDescBy _ _ _).mp (List.take_subset _ _ h))

theorem vehicleBonus_nonneg (e : Entities) (v : ViolationRec) :
    0 ≤ vehicleBonus e v := by
  rw [vehicleBonus]
  rcases e.vehicle_type with _ | evt <;> simp <;> split <;> try split
  all_goals omega

theorem typeBonusAux_cases (l : List String) (vt : String) :
    typeBonusAux l vt = 0 ∨ typeBonusAux l vt = 30 := by
  induction l with
  | nil => simp [typeBonusAux]
  | cons t rest ih =>
      rw [typeBonusAux]
      split
      · right; rfl
      · exact ih

theorem typeBonus_nonneg (e : Entities) (v : ViolationRec) :
    0 ≤ typeBonus e v := by
  rcases typeBonusAux_cases e.violation_types v.violation_type with h | h <;>
    simp [typeBonus, h]

theorem typeBonus_le (e : Entities) (v : ViolationRec) :
    typeBonus e v ≤ 30 := by
  rcases typeBonusAux_cases e.violation_types v.violation_type with h | h <;>
    simp [typeBonus, h]

theorem symptomBonusAux_count (recSyms : String) (l : List String) :
    symptomBonusAux recSyms l = 30 * (l.countP (fun s => pyIn s recSyms)) := by
  induction l with
  | nil => simp [symptomBonusAux]
  | cons s rest ih =>
      rw [symptomBonusAux, ih, List.countP_cons]
      split <;> simp_all
      ring

theorem symptomBonus_nonneg (e : HEntities) (r : HRecord) :
    0 ≤ symptomBonus e r := by
  rcases r with a | n | ex <;> simp [symptomBonus]
  split
  · omega
  · rw [symptomBonusAux_count]; positivity

/-! ## Whitespace lemmas

A blank query survives normalisation as a blank string (every
substitution pattern and every emergency keyword starts with a
non-whitespace character), so a query in which `check_emergency` finds a
keyword necessarily passes the `query.strip()` guard. -/

/-- A string whose first character is not whitespace. -/
def headNonWs (s : String) : Bool :=
  match s.data with
  | [] => false
  | c :: _ => !isSpaceChar c

theorem toLower_ws (c : Char) (h : isSpaceChar c = true) :
    Char.toLower c = c := by
  rw [isSpaceChar] at h
  simp only [Bool.or_eq_true, decide_eq_true_eq] at h
  have hc : c = ' ' ∨ c = '\t' ∨ c = '\n' ∨ c = '\r' := by tauto
  rcases hc with rfl | rfl | rfl | rfl <;> decide

theorem replAux_of_allws (fuel : Nat) (l : List Char) (p : Char)
    (ps rep : List Char) (hl : ∀ c ∈ l, isSpaceChar c = true)
    (hp : isSpaceChar p = false) : replAux fuel l (p :: ps) rep = l := by
  induction fuel generalizing l with
  | zero => rfl
  | succ fuel ih =>
      cases l with
      | nil => rfl
      | cons c rest =>
          have hc : isSpaceChar c = true := hl c (by simp)
          have hne : (p == c) = false := by
            rw [beq_eq_false_iff_ne]
            intro hb
            rw [hb, hc] at hp
            simp at hp
          rw [replAux]
          have : ((p :: ps).isPrefixOf (c :: rest)) = false := by
            simp [List.isPrefixOf, hne]
          rw [this]
          simp only [Bool.false_eq_true, if_false]
          rw [ih rest (fun c hcm => hl c (by simp [hcm]))]

theorem pyReplace_of_allws (s pat rep : String)
    (hs : ∀ c ∈ s.data, isSpaceChar c = true)
    (hpat : headNonWs pat = true) : pyReplace s pat rep = s := by
  rw [headNonWs] at hpat
  rw [pyReplace]
  cases hd : pat.data with
  | nil => simp [hd]
  | cons p ps =>
      rw [hd] at hpat
      simp only [Bool.not_eq_true'] at hpat
      simp only [hd, List.isEmpty_cons, Bool.false_eq_true, if_false]
      rw [replAux_of_allws _ _ _ _ _ hs hpat]

theorem allws_lowerStr (t : String) (h : ∀ c ∈ t.data, isSpaceChar c = true) :
    ∀ c ∈ (lowerStr t).data, isSpaceChar c = true := by
  intro c hc
  rw [lowerStr] at hc
  simp only [List.mem_map] at hc
  obtain ⟨c0, hc0, rfl⟩ := hc
  rw [toLower_ws c0 (h c0 hc0)]
  exact h c0 hc0

theorem applyReplacements_of_allws (table : List (String × String))
    (ht : table.all (fun pr => headNonWs pr.1) = true) (t : String)
    (h : ∀ c ∈ t.data, isSpaceChar c = true) :
    applyReplacements table t = lowerStr t := by
  rw [applyReplacements]
  have hlow := allws_lowerStr t h
  generalize lowerStr t = u at *
  induction table with
  | nil => rfl
  | cons pr rest ih =>
      rw [List.all_cons, Bool.and_eq_true] at ht
      rw [List.foldl_cons, pyReplace_of_allws u pr.1 pr.2 hlow ht.1]
      exact ih ht.2

theorem containsSub_of_allws (l : List Char) (p : Char) (ps : List Char)
    (hl : ∀ c ∈ l, isSpaceChar c = true) (hp : isSpaceChar p = false) :
    containsSub l (p :: ps) = false := by
  induction l with
  | nil => rfl
  | cons c rest ih =>
      have hc : isSpaceChar c = true := hl c (by simp)
      have hne : (p == c) = false := by
        rw [beq_eq_false_iff_ne]
        intro hb
        rw [hb, hc] at hp
        simp at hp
      rw [containsSub]
      simp [List.isPrefixOf, hne, ih (fun c hcm => hl c (by simp [hcm]))]

theorem pyIn_false_of_allws (sub s : String)
    (hs : ∀ c ∈ s.data, isSpaceChar c = true)
    (hsub : headNonWs sub = true) : pyIn sub s = false := by
  rw [headNonWs] at hsub
  rw [pyIn]
  cases hd : sub.data with
  | nil => rw [hd] at hsub; cases hsub
  | cons p ps =>
      rw [hd] at hsub
      simp only [Bool.not_eq_true'] at hsub
      exact containsSub_of_allws s.data p ps hs hsub

theorem allws_of_pyStrip_empty (s : String) (h : pyStrip s = "") :
    ∀ c ∈ s.data, isSpaceChar c = true := by
  rw [pyStrip] at h
  have hdata : (((s.data.dropWhile (isSpaceChar ·)).reverse.dropWhile
      (isSpaceChar ·)).reverse) = [] := by
    have := congrArg String.data h
    simpa using this
  rw [List.reverse_eq_nil_iff, List.dropWhile_eq_nil_iff] at hdata
  have hdrop : ∀ c ∈ s.data.dropWhile (isSpaceChar ·), isSpaceChar c = true := by
    intro c hc
    exact by simpa using hdata c (by simp [hc])
  intro c hc
  rw [← List.takeWhile_append_dropWhile (p := (isSpaceChar ·)) (l := s.data),
    List.mem_append] at hc
  rcases hc with hc | hc
  · simpa using List.mem_takeWhile_imp hc
  · exact hdrop c hc

/-! ## Corpus/record alignment (health variant) -/

theorem length_healthCorpus (A : List AdviceRec) (N : List NutritionRec)
    (E : List ExerciseRec) :
    (healthCorpus A N E).length = A.length + N.length + E.length := by
  simp [healthCorpus]
  omega

theorem healthCorpus_getD_eq (A : List AdviceRec) (N : List NutritionRec)
    (E : List ExerciseRec) (i : Nat)
    (h : i < (healthCorpus A N E).length) :
    (healthCorpus A N E).getD i "" = recordText (decodeHealth A N E i) := by
  rw [length_healthCorpus] at h
  rw [healthCorpus, decodeHealth, List.getD_eq_getElem?_getD]
  simp only [List.getElem?_append, List.length_append, List.length_map]
  by_cases h1 : i < A.length
  · have h1' : i < A.length + N.length := by omega
    rw [if_pos h1', if_pos h1, List.getElem?_map, List.getElem?_eq_getElem h1]
    simp [recordText, h1, List.getD_eq_getElem?_getD, List.getElem?_eq_getElem h1]
  · by_cases h2 : i < A.length + N.length
    · have hn : i - A.length < N.length := by omega
      rw [if_pos h2, if_neg h1, List.getElem?_map, List.getElem?_eq_getElem hn]
      simp [recordText, h1, h2, List.getD_eq_getElem?_getD,
        List.getElem?_eq_getElem hn]
    · have he : i - (A.length + N.length) < E.length := by omega
      have he' : i - A.length - N.length < E.length := by omega
      rw [if_neg h2, List.getElem?_map, List.getElem?_eq_getElem he]
      simp [recordText, h1, h2, List.getD_eq_getElem?_getD,
        List.getElem?_eq_getElem he', Nat.sub_sub,
        List.getElem?_eq_getElem he]

/-! ## Claim-level theorems -/

/-- Claim C1 (code evaluation at the failing input): after
`add_violation`, `self.violations` and `self.corpus` reflect the new
record set while the TF-IDF index is still the one fitted on the old
corpus — the traffic-law mutation methods call `load_data()` but never
`build_search_index()`, so a subsequent search scores against a stale
index. -/
theorem C1_stale_index_after_add :
    (addViolation r2 (initEngine [r1])).violations = [r1, r2] ∧
    (addViolation r2 (initEngine [r1])).corpus = trafficCorpus [r1, r2] ∧
    (addViolation r2 (initEngine [r1])).indexCorpus = some (trafficCorpus [r1]) ∧
    (addViolation r2 (initEngine [r1])).indexCorpus ≠
      some ((addViolation r2 (initEngine [r1])).corpus) := by
  decide

/-- Claim C2 counterexample: in the health variant the +0.3 symptom
bonus has no early exit, so a record matching two extracted symptoms
gains +0.6 — the returned confidence 1.10 exceeds the raw similarity
0.50 by more than 0.3. -/
theorem C2_counterexample :
    (searchHealthInfo [50] cA [] [] "đau đầu mệt mỏi").map HResult.confidence
      = [110] ∧
    simAt [50] 0 = 50 ∧ ¬ ((110 : Int) ≤ 50 + 30) := by
  decide

/-- Claim C2 (amended): in the traffic-law variant the +0.3 type-tag
bonus is granted at most once per record (the loop breaks after the
first matching tag), so each returned confidence exceeds similarity
plus vehicle bonus by at most 0.3; the health variant instead grants
+0.3 per matching extracted symptom with no early exit (30 × the match
count). -/
theorem C2_amended :
    (∀ e v, typeBonus e v = 0 ∨ typeBonus e v = 30) ∧
    (∀ sims viols e r, r ∈ searchViolationsE sims viols e →
      r.confidence ≤ simAt sims r.idx + vehicleBonus e r.row + 30) ∧
    (∀ e a, ¬ a.symptoms = "" →
      symptomBonus e (.advice a)
        = 30 * (e.symptoms.countP (fun s => pyIn s a.symptoms))) := by
  refine ⟨fun e v => typeBonusAux_cases e.violation_types v.violation_type, ?_, ?_⟩
  · intro sims viols e r hr
    obtain ⟨i, hi, hsim, rfl⟩ := mem_searchViolationsE sims viols e r hr
    simp only [mkTResult]
    have := typeBonus_le e (viols.getD i defaultViolation)
    omega
  · intro e a ha
    simp [symptomBonus, ha, symptomBonusAux_count]

/-- Claim C2 witness: the amended traffic bound applied to a concrete
returned result. -/
theorem C2_witness :
    (⟨3, ⟨some "d", "k", "xe máy", "đèn đỏ"⟩, 65⟩ : TResult).confidence ≤
      simAt [50, 45, 40, 35, 30, 25]
        (⟨3, ⟨some "d", "k", "xe máy", "đèn đỏ"⟩, 65⟩ : TResult).idx +
      vehicleBonus (extractEntities "vượt đèn đỏ")
        (⟨3, ⟨some "d", "k", "xe máy", "đèn đỏ"⟩, 65⟩ : TResult).row + 30 :=
  C2_amended.2.1 [50, 45, 40, 35, 30, 25] pViols
    (extractEntities "vượt đèn đỏ")
    ⟨3, ⟨some "d", "k", "xe máy", "đèn đỏ"⟩, 65⟩ (by decide)

/-- Claim C3 counterexample: document 3 has similarity 0.60 > 0.05 yet
is not in the returned results — the pool of 5 passes the threshold but
the final truncation keeps only 3, so "strictly greater ⇒ included"
fails. -/
theorem C3_counterexample :
    5 < simAt [90, 80, 70, 60, 50, 40] 3 ∧
    (searchViolations [90, 80, 70, 60, 50, 40] exViols "hello").map TResult.idx
      = [0, 1, 2] ∧
    3 ∉ (searchViolations [90, 80, 70, 60, 50, 40] exViols "hello").map
      TResult.idx := by
  decide

/-- Claim C3 (amended): similarity exactly 0.05 is always excluded —
every returned result's similarity is strictly greater than 0.05, in
both variants — and a document with similarity above 0.05 is guaranteed
into the candidate list exactly when it is in the argsort pool (top 5
traffic, top 3 health); the final truncation to 3 may still drop it. -/
theorem C3_amended :
    (∀ sims viols e r, r ∈ searchViolationsE sims viols e →
      5 < simAt sims r.idx) ∧
    (∀ sims viols e i, i ∈ topIndices sims 5 → 5 < simAt sims i →
      i ∈ (trafficCandidates sims viols e).map TResult.idx) ∧
    (∀ sims A N E e r, r ∈ searchHealthInfoE sims A N E e →
      5 < simAt sims r.idx) ∧
    (∀ sims A N E e i, i ∈ topIndices sims 3 → 5 < simAt sims i →
      i ∈ (healthCandidates sims A N E e).map HResult.idx) := by
  refine ⟨?_, ?_, ?_, ?_⟩
  · intro sims viols e r hr
    obtain ⟨i, _, hsim, rfl⟩ := mem_searchViolationsE sims viols e r hr
    exact hsim
  · intro sims viols e i hi hsim
    rw [List.mem_map]
    exact ⟨mkTResult sims viols e i,
      (mem_trafficCandidates sims viols e _).mpr ⟨i, hi, hsim, rfl⟩, rfl⟩
  · intro sims A N E e r hr
    obtain ⟨i, _, hsim, rfl⟩ := mem_searchHealthInfoE sims A N E e r hr
    exact hsim
  · intro sims A N E e i hi hsim
    rw [List.mem_map]
    exact ⟨mkHResult sims A N E e i,
      (mem_healthCandidates sims A N E e _).mpr ⟨i, hi, hsim, rfl⟩, rfl⟩

/-- Claim C3 witness: the strict-threshold bound applied to a concrete
returned result. -/
theorem C3_witness :
    5 < simAt [50, 45, 40, 35, 30, 25]
      ((⟨3, ⟨some "d", "k", "xe máy", "đèn đỏ"⟩, 65⟩ : TResult).idx) :=
  C3_amended.1 [50, 45, 40, 35, 30, 25] pViols
    (extractEntities "vượt đèn đỏ")
    ⟨3, ⟨some "d", "k", "xe máy", "đèn đỏ"⟩, 65⟩ (by decide)

/-- Claim C4: in both variants every returned result's confidence is at
least the raw cosine similarity of its row — all bonuses (+0.2 / +0.1
vehicle or category, +0.3 type tag or symptom) are non-negative
additions on top of the similarity. -/
theorem C4_confidence_ge_similarity :
    (∀ sims viols e r, r ∈ searchViolationsE sims viols e →
      simAt sims r.idx ≤ r.confidence) ∧
    (∀ sims A N E e r, r ∈ searchHealthInfoE sims A N E e →
      simAt sims r.idx ≤ r.confidence) := by
  constructor
  · intro sims viols e r hr
    obtain ⟨i, _, _, rfl⟩ := mem_searchViolationsE sims viols e r hr
    simp only [mkTResult]
    have h1 := vehicleBonus_nonneg e (viols.getD i defaultViolation)
    have h2 := typeBonus_nonneg e (viols.getD i defaultViolation)
    omega
  · intro sims A N E e r hr
    obtain ⟨i, _, _, rfl⟩ := mem_searchHealthInfoE sims A N E e r hr
    simp only [mkHResult]
    have h1 := symptomBonus_nonneg e (decodeHealth A N E i)
    omega

/-- Claim C4 witness: the bound applied to a concrete returned result. -/
theorem C4_witness :
    simAt [50, 45, 40, 35, 30, 25]
        ((⟨3, ⟨some "d", "k", "xe máy", "đèn đỏ"⟩, 65⟩ : TResult).idx) ≤
      (⟨3, ⟨some "d", "k", "xe máy", "đèn đỏ"⟩, 65⟩ : TResult).confidence :=
  C4_confidence_ge_similarity.1 [50, 45, 40, 35, 30, 25] pViols
    (extractEntities "vượt đèn đỏ")
    ⟨3, ⟨some "d", "k", "xe máy", "đèn đỏ"⟩, 65⟩ (by decide)

/-- Claim C5 counterexample: the health variant's candidate pool is the
top 3 (its `top_k` default), not 5 — record 3 passes the threshold and
would gain the +0.3 symptom bonus, yet the pool cuts it before
adjustment, so no bonus can promote it into the final 3. -/
theorem C5_counterexample :
    (topIndices [50, 45, 40, 35, 30] 3).length = 3 ∧
    ¬ (topIndices [50, 45, 40, 35, 30] 3).length = 5 ∧
    5 < simAt [50, 45, 40, 35, 30] 3 ∧
    symptomBonus (extractHealthEntities "đau đầu") (decodeHealth hA5 [] [] 3)
      = 30 ∧
    (searchHealthInfo [50, 45, 40, 35, 30] hA5 [] [] "đau đầu").map HResult.idx
      = [0, 1, 2] ∧
    3 ∉ (searchHealthInfo [50, 45, 40, 35, 30] hA5 [] [] "đau đầu").map
      HResult.idx := by
  decide

/-- Claim C5 (amended): the traffic-law variant selects the top
`min 5 n` documents and truncates to 3, and a type-tag bonus can
promote a row ranked 4th by raw similarity into the final 3 (row 3
below); the health variant's pool is the top `min 3 n` — equal to the
final count, not strictly larger. -/
theorem C5_amended :
    (∀ sims, (topIndices sims 5).length = min 5 sims.length) ∧
    (∀ sims, (topIndices sims 3).length = min 3 sims.length) ∧
    topIndices [50, 45, 40, 35, 30, 25] 3 = [0, 1, 2] ∧
    (searchViolations [50, 45, 40, 35, 30, 25] pViols "vượt đèn đỏ").map
      TResult.idx = [3, 0, 1] := by
  refine ⟨fun sims => length_topIndices sims 5,
    fun sims => length_topIndices sims 3, ?_, ?_⟩ <;> decide

/-- Claim C6: the corpus is health advice ++ nutrition ++ exercise, and
the offset arithmetic of `search_health_info` resolves every index of
that concatenation back to the record whose text occupies that corpus
row; consequently every returned result's record is the one its corpus
row was built from (when the similarity vector has one entry per corpus
row). -/
theorem C6_corpus_alignment (A : List AdviceRec) (N : List NutritionRec)
    (E : List ExerciseRec) :
    (∀ i, i < (healthCorpus A N E).length →
      (healthCorpus A N E).getD i "" = recordText (decodeHealth A N E i)) ∧
    (∀ sims e r, sims.length = (healthCorpus A N E).length →
      r ∈ searchHealthInfoE sims A N E e →
      r.record = decodeHealth A N E r.idx ∧
      recordText r.record = (healthCorpus A N E).getD r.idx "") := by
  constructor
  · exact fun i hi => healthCorpus_getD_eq A N E i hi
  · intro sims e r hlen hr
    obtain ⟨i, hi, _, rfl⟩ := mem_searchHealthInfoE sims A N E e r hr
    have hlt : i < (healthCorpus A N E).length :=
      hlen ▸ mem_topIndices_lt sims 3 i hi
    exact ⟨rfl, (healthCorpus_getD_eq A N E i hlt).symm⟩

/-- Claim C6 witness: the alignment applied at a concrete corpus row. -/
theorem C6_witness :
    (healthCorpus hA5 [] []).getD 3 "" = recordText (decodeHealth hA5 [] [] 3) :=
  (C6_corpus_alignment hA5 [] []).1 3 (by decide)

/-- Claim C7 (code evaluation at the failing input): a violations row
whose `description` is SQL `NULL` does not make `load_data` fail — no
DataError path exists — and the row is silently included in the corpus
with its missing field rendered as the text `"none"`, at its original
position. -/
theorem C7_null_field_silently_included :
    loadDataResult [goodRow, badRow] =
      .ok ["vượt đèn đỏ kw ô tô đèn đỏ", "none kw xe máy tốc độ"] ∧
    pyIn "none" ((trafficCorpus [goodRow, badRow]).getD 1 "") = true ∧
    (trafficCorpus [goodRow, badRow]).length = 2 := by
  decide

/-- Claim C8: when the preprocessed query contains an emergency keyword
and some stored emergency condition has a whitespace-separated keyword
occurring in it, `generate_health_response` returns the first such
condition directly with confidence 1.0 and urgency "emergency", and
`search_health_info` is not invoked (the `false` flag). -/
theorem C8_emergency_short_circuit (conds : List EmergencyRec)
    (sims : List Int) (A : List AdviceRec) (N : List NutritionRec)
    (E : List ExerciseRec) (query : String) (c : EmergencyRec)
    (hk : emergencyKeywords.any (fun k => pyIn k (healthPreprocess query)) = true)
    (hc : conds.find?
      (fun c0 => (pySplit c0.keywords).any fun k =>
        pyIn k (healthPreprocess query)) = some c) :
    generateHealthResponse conds sims A N E query = (.emergency c, false) ∧
    (pySplit c.keywords).any (fun k => pyIn k (healthPreprocess query)) = true ∧
    responseConfidence (.emergency c) = 100 ∧
    (∀ ents, responseUrgency ents (.emergency c) = "emergency") := by
  have hstrip : ¬ pyStrip query = "" := by
    intro hstrip
    have hall := allws_of_pyStrip_empty query hstrip
    have happ : healthPreprocess query = lowerStr query :=
      applyReplacements_of_allws healthReplacements (by decide) query hall
    have hlow : ∀ ch ∈ (healthPreprocess query).data, isSpaceChar ch = true := by
      rw [happ]
      exact allws_lowerStr query hall
    rw [List.any_eq_true] at hk
    obtain ⟨k, hkmem, hkin⟩ := hk
    have hhead : headNonWs k = true := by
      have hall2 : emergencyKeywords.all headNonWs = true := by decide
      rw [List.all_eq_true] at hall2
      exact hall2 k hkmem
    rw [pyIn_false_of_allws k (healthPreprocess query) hlow hhead] at hkin
    cases hkin
  have hpc : ((pySplit c.keywords).any fun k =>
      pyIn k (healthPreprocess query)) = true := by
    have h := List.find?_some hc
    simpa using h
  refine ⟨?_, hpc, rfl, fun ents => rfl⟩
  rw [generateHealthResponse, if_neg hstrip, checkEmergency]
  simp only [hk, if_true, hc]

/-- Claim C8 witness: the short-circuit at the spec's concrete scenario
query against a stored chest-pain emergency condition. -/
theorem C8_witness :
    generateHealthResponse [eCond] [50] hA5 [] [] "cấp cứu đau ngực dữ dội"
      = (.emergency eCond, false) ∧
    (pySplit eCond.keywords).any (fun k =>
      pyIn k (healthPreprocess "cấp cứu đau ngực dữ dội")) = true ∧
    responseConfidence (.emergency eCond) = 100 ∧
    (∀ ents, responseUrgency ents (.emergency eCond) = "emergency") :=
  C8_emergency_short_circuit [eCond] [50] hA5 [] [] "cấp cứu đau ngực dữ dội"
    eCond (by decide) (by decide)

/-- Claim C9 counterexample: normalisation is not idempotent for either
shipped table — the traffic entry "giấy phép" ↦ "giấy phép lái xe" and
the health entry "stress" ↦ "căng thẳng stress" each reintroduce their
own pattern. -/
theorem C9_counterexample :
    trafficPreprocess (trafficPreprocess "giấy phép")
      ≠ trafficPreprocess "giấy phép" ∧
    healthPreprocess (healthPreprocess "stress")
      ≠ healthPreprocess "stress" := by
  decide

/-- Claim C9 (amended): normalisation is idempotent for neither shipped
table; the specific observed behaviour is that each application appends
another " lái xe" (traffic) resp. doubles the "căng thẳng stress"
rewrite (health). -/
theorem C9_amended :
    trafficPreprocess "giấy phép" = "giấy phép lái xe" ∧
    trafficPreprocess "giấy phép lái xe" = "giấy phép lái xe lái xe" ∧
    healthPreprocess "stress" = "căng thẳng stress" ∧
    healthPreprocess "căng thẳng stress"
      = "căng thẳng stress căng thẳng stress" := by
  decide

/-- Claim C10: for every input, the traffic-law entity extractor leaves
`alcohol_level` at `None` — the field is initialised and never
assigned, even when alcohol keywords append "nồng độ cồn" to the type
tags. -/
theorem C10_alcohol_level_none :
    ∀ text, (extractEntities text).alcohol_level = none := fun _ => rfl
